import Mathlib

/-!
Verification of the kilroy-ws-client-py-sdk client library.

This file shallowly embeds the message model, the parse cascade, the chat
envelope, the sender/receiver strategies and their concurrent composition
from `kilroy_ws_client_py_sdk` (messages.py, errors.py, protocol.py,
senders.py, receivers.py, operations.py) and proves the spec's claims
about them.

Modelling conventions:
- Wire text is modelled at the JSON level: a frame is either text that is
  not valid JSON (`Wire.invalid`) or a decoded JSON value (`Wire.json`).
  JSON encoding/decoding of text is an external collaborator of the core.
- UUID values are opaque; their wire codec (pydantic renders a UUID as a
  string and validates strings back into UUIDs) is modelled by an
  injective encoding of `Uuid` into JSON strings, whose decoder accepts
  every string.  No claim depends on the concrete UUID string format.
- `uuid4()` fresh-id generation is modelled by passing the fresh value as
  an explicit argument; pydantic's `default_factory=uuid4` on the `id`
  field is modelled by a fixed constant, since no claim observes the
  auto-generated id of a parsed frame.
- Scalar field validation (`int`, `str`) is modelled strictly (the exact
  JSON scalar of the annotated type); pydantic v1's lax coercions admit
  more wires but no claim depends on them.
- The asynchronous receive loops become functions over the list of inbound
  frames; `asyncio` task scheduling and cancellation become an explicit
  task-state type with the documented cancel/await semantics.
-/

/-- Opaque model of a version-4 UUID. -/
structure Uuid where
  val : Nat
deriving DecidableEq, Repr

/-- The recursive JSON value type: payloads and decoded wire frames. -/
inductive Json where
  | null
  | bool (b : Bool)
  | num (n : Int)
  | str (s : String)
  | arr (elems : List Json)
  | obj (fields : List (String × Json))

/-- One inbound text frame: either text that is not valid JSON (pydantic's
`parse_raw` turns the decode failure into a `ValidationError`) or a decoded
JSON value. -/
inductive Wire where
  | invalid
  | json (value : Json)

/-- messages.py `StartMessage`: `type: Literal["start"]`, inherited `id` and
`chat_id`. -/
structure StartMessage where
  id : Uuid
  chat_id : Uuid

/-- messages.py `StopMessage`. -/
structure StopMessage where
  id : Uuid
  chat_id : Uuid

/-- messages.py `DataMessage`: adds `payload: JSON`. -/
structure DataMessage where
  id : Uuid
  chat_id : Uuid
  payload : Json

/-- messages.py `StreamEndMessage`: `type: Literal["stream-end"]`. -/
structure StreamEndMessage where
  id : Uuid
  chat_id : Uuid

/-- messages.py `AppErrorMessage`: adds `code: int` and `reason: str`. -/
structure AppErrorMessage where
  id : Uuid
  chat_id : Uuid
  code : Int
  reason : String

/-- messages.py `ProtocolErrorMessage`: `chat_id` is `Optional[UUID]`, plus
`reason: str`. -/
structure ProtocolErrorMessage where
  id : Uuid
  chat_id : Option Uuid
  reason : String

/-- errors.py: the two surfaced error kinds, `ProtocolError(reason)` and
`AppError(code, reason)`. -/
inductive Error where
  | protocolError (reason : String)
  | appError (code : Int) (reason : String)
deriving DecidableEq, Repr

/-- errors.py `INVALID_MESSAGE_ERROR`. -/
def INVALID_MESSAGE_ERROR : Error := .protocolError "Invalid message received."

/-- errors.py `CONVERSATION_ERROR`. -/
def CONVERSATION_ERROR : Error :=
  .protocolError "Received incompatible conversation id."

/-- Pydantic field lookup on a decoded JSON object: the camelCase alias
(generated by `alias_generator = camelize`) is consulted first, then the
field name itself (`allow_population_by_field_name = True`). -/
def lookupField (fields : List (String × Json)) (aliasKey fieldName : String) :
    Option Json :=
  match fields.lookup aliasKey with
  | some v => some v
  | none => fields.lookup fieldName

/-- Wire encoding of a UUID: pydantic serializes UUIDs as JSON strings.
Modelled by an injective encoding into strings (see file header). -/
def uuidStr (u : Uuid) : String := String.mk (List.replicate u.val 'u')

/-- Wire decoding of a UUID from a JSON value: pydantic accepts a string
and validates it; every string decodes in this model. -/
def asUuid : Json → Option Uuid
  | .str s => some ⟨s.length⟩
  | _ => none

/-- JSON form of a UUID field value. -/
def uuidJson (u : Uuid) : Json := .str (uuidStr u)

/-- Validation of an `int` field (`code`). -/
def asInt : Json → Option Int
  | .num n => some n
  | _ => none

/-- Validation of a `str` field (`reason`). -/
def asStr : Json → Option String
  | .str s => some s
  | _ => none

/-- Stand-in for `uuid4()` in pydantic's `default_factory` on the `id`
field; no claim observes the auto-generated id of a parsed frame. -/
def uuid4_default : Uuid := ⟨0⟩

/-- Validation of the `id: UUID = Field(default_factory=uuid4)` field: a
missing field takes the fresh default, a present field must validate. -/
def parseIdField (fields : List (String × Json)) : Option Uuid :=
  match lookupField fields "id" "id" with
  | none => some uuid4_default
  | some v => asUuid v

/-- Validation of the required `chat_id: UUID` field (wire alias `chatId`). -/
def parseChatIdField (fields : List (String × Json)) : Option Uuid :=
  (lookupField fields "chatId" "chat_id").bind asUuid

/-- Validation of `ProtocolErrorMessage.chat_id : Optional[UUID]`: absent or
null gives `none`, otherwise the value must validate. -/
def parseOptChatIdField (fields : List (String × Json)) :
    Option (Option Uuid) :=
  match lookupField fields "chatId" "chat_id" with
  | none => some none
  | some .null => some none
  | some v => (asUuid v).map some

/-- Validation of the `type` discriminator: a `Literal[lit] = lit` field
accepts an absent field (the default applies) and otherwise requires the
exact literal string. -/
def typeFieldOk (fields : List (String × Json)) (lit : String) : Bool :=
  match lookupField fields "type" "type" with
  | none => true
  | some (.str s) => s == lit
  | some _ => false

/-- Validation of `payload: JSON`: the `JSON` union admits `null`, so
pydantic v1 treats the field as optional with default `None`; any JSON
value validates. -/
def parsePayloadField (fields : List (String × Json)) : Json :=
  match lookupField fields "payload" "payload" with
  | none => .null
  | some v => v

/-- Decoded wire frames must be JSON objects to validate as messages. -/
def objFieldsOf : Wire → Option (List (String × Json))
  | .json (.obj fields) => some fields
  | _ => none

/-- Pydantic `StartMessage.parse_raw`: `none` models `ValidationError`. -/
def StartMessage.parse_raw (data : Wire) : Option StartMessage :=
  match objFieldsOf data with
  | none => none
  | some fields =>
    if typeFieldOk fields "start" then
      match parseIdField fields, parseChatIdField fields with
      | some i, some c => some ⟨i, c⟩
      | _, _ => none
    else none

/-- Pydantic `StopMessage.parse_raw`. -/
def StopMessage.parse_raw (data : Wire) : Option StopMessage :=
  match objFieldsOf data with
  | none => none
  | some fields =>
    if typeFieldOk fields "stop" then
      match parseIdField fields, parseChatIdField fields with
      | some i, some c => some ⟨i, c⟩
      | _, _ => none
    else none

/-- Pydantic `StreamEndMessage.parse_raw`. -/
def StreamEndMessage.parse_raw (data : Wire) : Option StreamEndMessage :=
  match objFieldsOf data with
  | none => none
  | some fields =>
    if typeFieldOk fields "stream-end" then
      match parseIdField fields, parseChatIdField fields with
      | some i, some c => some ⟨i, c⟩
      | _, _ => none
    else none

/-- Pydantic `DataMessage.parse_raw`. -/
def DataMessage.parse_raw (data : Wire) : Option DataMessage :=
  match objFieldsOf data with
  | none => none
  | some fields =>
    if typeFieldOk fields "data" then
      match parseIdField fields, parseChatIdField fields with
      | some i, some c => some ⟨i, c, parsePayloadField fields⟩
      | _, _ => none
    else none

/-- Pydantic `AppErrorMessage.parse_raw`. -/
def AppErrorMessage.parse_raw (data : Wire) : Option AppErrorMessage :=
  match objFieldsOf data with
  | none => none
  | some fields =>
    if typeFieldOk fields "app-error" then
      match parseIdField fields, parseChatIdField fields,
          (lookupField fields "code" "code").bind asInt,
          (lookupField fields "reason" "reason").bind asStr with
      | some i, some c, some code, some reason => some ⟨i, c, code, reason⟩
      | _, _, _, _ => none
    else none

/-- Pydantic `ProtocolErrorMessage.parse_raw`. -/
def ProtocolErrorMessage.parse_raw (data : Wire) :
    Option ProtocolErrorMessage :=
  match objFieldsOf data with
  | none => none
  | some fields =>
    if typeFieldOk fields "protocol-error" then
      match parseIdField fields, parseOptChatIdField fields,
          (lookupField fields "reason" "reason").bind asStr with
      | some i, some c, some reason => some ⟨i, c, reason⟩
      | _, _, _ => none
    else none

/-- Python `str(error)` on a parsed `ProtocolErrorMessage` (pydantic's
model rendering); the cascade raises `ProtocolError(str(error))`.  No claim
depends on the rendering beyond it being a function of the frame. -/
def ProtocolErrorMessage.display (m : ProtocolErrorMessage) : String :=
  "protocol error frame: " ++ m.reason

/-- The message classes `parse_message` is instantiated at (protocol.py is
generic over `Type[MessageType]`). -/
inductive MessageKind where
  | start
  | stop
  | data
  | streamEnd
  | appError
  | protocolError
deriving DecidableEq, Repr

/-- The discriminated union of parsed frames. -/
inductive Message where
  | start (m : StartMessage)
  | stop (m : StopMessage)
  | data (m : DataMessage)
  | streamEnd (m : StreamEndMessage)
  | appError (m : AppErrorMessage)
  | protocolError (m : ProtocolErrorMessage)

/-- `message_type.parse_raw(data)` dispatched on the message class. -/
def parse_raw (message_type : MessageKind) (data : Wire) : Option Message :=
  match message_type with
  | .start => (StartMessage.parse_raw data).map .start
  | .stop => (StopMessage.parse_raw data).map .stop
  | .data => (DataMessage.parse_raw data).map .data
  | .streamEnd => (StreamEndMessage.parse_raw data).map .streamEnd
  | .appError => (AppErrorMessage.parse_raw data).map .appError
  | .protocolError => (ProtocolErrorMessage.parse_raw data).map .protocolError

/-- protocol.py `parse_message`, the error branch: on `ValidationError` of
the expected variant, try `ProtocolErrorMessage` and raise
`ProtocolError(str(error))`; then `AppErrorMessage` and raise
`AppError(code, reason)`; else `INVALID_MESSAGE_ERROR`. -/
def message_error (data : Wire) : Error :=
  match ProtocolErrorMessage.parse_raw data with
  | some error => .protocolError error.display
  | none =>
    match AppErrorMessage.parse_raw data with
    | some error => .appError error.code error.reason
    | none => INVALID_MESSAGE_ERROR

/-- protocol.py `parse_message(data, message_type)`. -/
def parse_message (data : Wire) (message_type : MessageKind) :
    Except Error Message :=
  match parse_raw message_type data with
  | some m => .ok m
  | none => .error (message_error data)

/-- protocol.py `parse_stop_message` (the `partial` of `parse_message` at
`StopMessage`, with the parsed frame at its concrete type). -/
def parse_stop_message (data : Wire) : Except Error StopMessage :=
  match StopMessage.parse_raw data with
  | some m => .ok m
  | none => .error (message_error data)

/-- protocol.py `parse_data_message`. -/
def parse_data_message (data : Wire) : Except Error DataMessage :=
  match DataMessage.parse_raw data with
  | some m => .ok m
  | none => .error (message_error data)

/-- protocol.py `parse_stream_end_message`. -/
def parse_stream_end_message (data : Wire) : Except Error StreamEndMessage :=
  match StreamEndMessage.parse_raw data with
  | some m => .ok m
  | none => .error (message_error data)

/-- Serialization `BaseMessage.json(by_alias=True)` for `StartMessage`:
compact JSON with camelCase field names, base-class fields first. -/
def StartMessage.json (m : StartMessage) : Json :=
  .obj [("id", uuidJson m.id), ("chatId", uuidJson m.chat_id),
        ("type", .str "start")]

/-- Serialization of `StopMessage`. -/
def StopMessage.json (m : StopMessage) : Json :=
  .obj [("id", uuidJson m.id), ("chatId", uuidJson m.chat_id),
        ("type", .str "stop")]

/-- Serialization of `StreamEndMessage`. -/
def StreamEndMessage.json (m : StreamEndMessage) : Json :=
  .obj [("id", uuidJson m.id), ("chatId", uuidJson m.chat_id),
        ("type", .str "stream-end")]

/-- Serialization of `DataMessage`. -/
def DataMessage.json (m : DataMessage) : Json :=
  .obj [("id", uuidJson m.id), ("chatId", uuidJson m.chat_id),
        ("type", .str "data"), ("payload", m.payload)]

/-- Serialization of `AppErrorMessage`. -/
def AppErrorMessage.json (m : AppErrorMessage) : Json :=
  .obj [("id", uuidJson m.id), ("chatId", uuidJson m.chat_id),
        ("type", .str "app-error"), ("code", .num m.code),
        ("reason", .str m.reason)]

/-- Serialization of `ProtocolErrorMessage` (`chat_id = None` renders as
JSON null). -/
def ProtocolErrorMessage.json (m : ProtocolErrorMessage) : Json :=
  .obj [("id", uuidJson m.id),
        ("chatId", match m.chat_id with
                   | none => .null
                   | some c => uuidJson c),
        ("type", .str "protocol-error"), ("reason", .str m.reason)]

/-- protocol.py `create_data_message(chat_id, payload)`; the fresh frame id
from `uuid4()` is passed explicitly.  With a well-typed UUID and a JSON
payload the pydantic construction cannot fail, so the `ValidationError`
branch ("Can't create data message.") is unreachable and the model is
total. -/
def create_data_message (chat_id : Uuid) (payload : Json) (fresh_id : Uuid) :
    DataMessage :=
  ⟨fresh_id, chat_id, payload⟩

/-- protocol.py `serialize_data_message(message)`: `message.json()`.  A JSON
payload always serializes, so the "Can't serialize data message." branch is
unreachable and the model is total. -/
def serialize_data_message (message : DataMessage) : Json :=
  message.json

/-- protocol.py `check_chat_id(message, expected_id)`, applied to the
message's `chat_id` field: raises `CONVERSATION_ERROR` on mismatch. -/
def check_chat_id (message_chat_id expected_id : Uuid) : Except Error Unit :=
  if message_chat_id ≠ expected_id then .error CONVERSATION_ERROR
  else .ok ()

/-- protocol.py `send_start_message(websocket, chat_id)`: the single frame
written to the transport. -/
def send_start_message (chat_id : Uuid) (fresh_id : Uuid) : Json :=
  StartMessage.json ⟨fresh_id, chat_id⟩

/-- protocol.py `receive_stop_message(websocket, chat_id)`, with the one
awaited frame passed in. -/
def receive_stop_message (data : Wire) (chat_id : Uuid) :
    Except Error StopMessage :=
  match parse_stop_message data with
  | .error e => .error e
  | .ok message =>
    match check_chat_id message.chat_id chat_id with
    | .error e => .error e
    | .ok _ => .ok message

/-- protocol.py `receive_data_message(websocket, chat_id)`. -/
def receive_data_message (data : Wire) (chat_id : Uuid) :
    Except Error DataMessage :=
  match parse_data_message data with
  | .error e => .error e
  | .ok message =>
    match check_chat_id message.chat_id chat_id with
    | .error e => .error e
    | .ok _ => .ok message

/-- protocol.py `receive_data_message_stream(websocket, chat_id)` over the
list of inbound frames: per frame, try `parse_data_message`; on
`ProtocolError` (and only on `ProtocolError` — an `AppError` escapes the
`except` clause) try `parse_stream_end_message`; on its success verify the
chat id and end the sequence; on its `ProtocolError` re-raise the original
error.  The yielded messages are collected in order. -/
def receive_data_message_stream (chat_id : Uuid) :
    List Wire → Except Error (List DataMessage)
  | [] => .ok []
  | data :: rest =>
    match parse_data_message data with
    | .ok message =>
      match check_chat_id message.chat_id chat_id with
      | .error e => .error e
      | .ok _ =>
        match receive_data_message_stream chat_id rest with
        | .ok messages => .ok (message :: messages)
        | .error e => .error e
    | .error (.appError code reason) => .error (.appError code reason)
    | .error (.protocolError r) =>
      match parse_stream_end_message data with
      | .ok message =>
        match check_chat_id message.chat_id chat_id with
        | .error e => .error e
        | .ok _ => .ok []
      | .error (.protocolError _) => .error (.protocolError r)
      | .error (.appError code reason) => .error (.appError code reason)

/-- protocol.py `send_data_message(websocket, chat_id, payload)`: the frame
written to the transport. -/
def send_data_message (chat_id : Uuid) (payload : Json) (fresh_id : Uuid) :
    Json :=
  serialize_data_message (create_data_message chat_id payload fresh_id)

/-- Helper for `send_data_message_stream`: the frames written for the
remaining payloads, with `fresh n` the n-th `uuid4()` drawn. -/
def send_data_message_stream_from (chat_id : Uuid) (fresh : Nat → Uuid) :
    Nat → List Json → List Json
  | n, [] => [StreamEndMessage.json ⟨fresh n, chat_id⟩]
  | n, payload :: rest =>
    send_data_message chat_id payload (fresh n) ::
      send_data_message_stream_from chat_id fresh (n + 1) rest

/-- protocol.py `send_data_message_stream(websocket, chat_id, payloads)`:
one `data` frame per payload in order, then one `stream-end` frame. -/
def send_data_message_stream (chat_id : Uuid) (fresh : Nat → Uuid)
    (payloads : List Json) : List Json :=
  send_data_message_stream_from chat_id fresh 0 payloads

/-- Result of running the `chat` context manager: the frames the envelope
itself wrote, the number of frames awaited on exit, and the outcome. -/
structure ChatRun (α : Type) where
  sent : List Json
  stop_frames_awaited : Nat
  outcome : Except Error α

/-- protocol.py `chat(websocket)` (an `asynccontextmanager`): generate a
fresh chat id (passed explicitly), send one `start` frame carrying it,
yield the id to the body; on normal exit of the body await one frame and
run `receive_stop_message`; on exceptional exit propagate the body's error
without awaiting anything (the exception is thrown into the generator at
the `yield`, so `receive_stop_message` is never reached). -/
def chat {α : Type} (chat_id fresh_start_id : Uuid)
    (body : Uuid → Except Error α) (stop_wire : Wire) : ChatRun α :=
  let sent := [send_start_message chat_id fresh_start_id]
  match body chat_id with
  | .error e => ⟨sent, 0, .error e⟩
  | .ok a =>
    match receive_stop_message stop_wire chat_id with
    | .error e => ⟨sent, 1, .error e⟩
    | .ok _ => ⟨sent, 1, .ok a⟩

/-- State of the spawned sender task at the moment the receiver finishes:
still pending, already completed, or already failed with an exception. -/
inductive TaskState where
  | running
  | finished
  | failed (e : Error)
deriving DecidableEq, Repr

/-- Result of awaiting a task right after calling `cancel()` on it
(asyncio semantics): a pending task raises `CancelledError`; a task that
already completed returns normally; a task that already failed re-raises
its stored exception. -/
inductive AwaitOutcome where
  | cancelled
  | completed
  | raised (e : Error)
deriving DecidableEq, Repr

/-- `sending_task.cancel()` followed by `await sending_task`. -/
def await_after_cancel : TaskState → AwaitOutcome
  | .running => .cancelled
  | .finished => .completed
  | .failed e => .raised e

/-- receivers.py `try: await sending_task except asyncio.CancelledError:
pass` — only the cancellation signal is absorbed. -/
def absorb_cancellation : AwaitOutcome → Except Error Unit
  | .cancelled => .ok ()
  | .completed => .ok ()
  | .raised e => .error e

/-- receivers.py `SingleReceiver.receive`: one `receive_data_message`, then
the payload. -/
def SingleReceiver_receive (data : Wire) (chat_id : Uuid) :
    Except Error Json :=
  match receive_data_message data chat_id with
  | .ok message => .ok message.payload
  | .error e => .error e

/-- Result of running a `chain`: whether the spawned sender task was
cancelled by the chain, and the value or error surfaced to the caller. -/
structure ChainRun (α : Type) where
  sender_cancelled : Bool
  outcome : Except Error α

/-- receivers.py `SingleReceiver.chain`: spawn the sender, await the single
receive, then cancel the sender task, await it and absorb only the
cancellation signal, and return the received payload.  When the receive
itself raises, the exception propagates before the cancellation lines are
reached, so the sender is not cancelled on that path. -/
def SingleReceiver_chain (sender : TaskState) (data : Wire)
    (chat_id : Uuid) : ChainRun Json :=
  match SingleReceiver_receive data chat_id with
  | .error e => ⟨false, .error e⟩
  | .ok payload =>
    match absorb_cancellation (await_after_cancel sender) with
    | .error e => ⟨true, .error e⟩
    | .ok _ => ⟨true, .ok payload⟩

/-- receivers.py `StreamReceiver.receive`: yield each data message's
payload from `receive_data_message_stream`. -/
def StreamReceiver_receive (chat_id : Uuid) (inbound : List Wire) :
    Except Error (List Json) :=
  match receive_data_message_stream chat_id inbound with
  | .ok messages => .ok (messages.map DataMessage.payload)
  | .error e => .error e

/-- How a run of `StreamReceiver.chain` ended: the receive loop finished
normally (stream end or inbound exhaustion), the consumer abandoned the
iteration (closed the generator at a `yield`, so the code after the loop
never runs), or an exception propagated out of the generator. -/
inductive StreamOutcome where
  | completed
  | abandoned
  | errored (e : Error)
deriving DecidableEq, Repr

/-- Observable result of a `StreamReceiver.chain` run: the payloads yielded
to the consumer, whether the chain cancelled the sender task, and how the
run ended. -/
structure StreamChainRun where
  yielded : List Json
  sender_cancelled : Bool
  outcome : StreamOutcome

/-- One step semantics of the inner loop of
`receive_data_message_stream`, shared by the stream chain model. -/
inductive StreamStep where
  | yield (message : DataMessage)
  | ended
  | raised (e : Error)

/-- The loop body of `receive_data_message_stream` on one inbound frame. -/
def stream_step (data : Wire) (chat_id : Uuid) : StreamStep :=
  match parse_data_message data with
  | .ok message =>
    match check_chat_id message.chat_id chat_id with
    | .error e => .raised e
    | .ok _ => .yield message
  | .error (.appError code reason) => .raised (.appError code reason)
  | .error (.protocolError r) =>
    match parse_stream_end_message data with
    | .ok message =>
      match check_chat_id message.chat_id chat_id with
      | .error e => .raised e
      | .ok _ => .ended
    | .error (.protocolError _) => .raised (.protocolError r)
    | .error (.appError code reason) => .raised (.appError code reason)

/-- receivers.py `StreamReceiver.chain` as a function of the sender task's
state, the inbound frames, and the number of pulls the consumer makes
before abandoning the iteration.  The generator only runs while pulled:
each yielded payload consumes one pull; with no pulls left the generator is
closed at its current `yield` and the cancellation lines after the loop are
never executed.  When the loop ends normally the sender task is cancelled,
awaited, and only the cancellation signal absorbed; an exception
propagating out of the loop also skips the cancellation lines. -/
def StreamReceiver_chain_go (sender : TaskState) (chat_id : Uuid) :
    List Wire → Nat → List Json → StreamChainRun
  | _, 0, acc => ⟨acc, false, .abandoned⟩
  | [], _ + 1, acc =>
    match absorb_cancellation (await_after_cancel sender) with
    | .ok _ => ⟨acc, true, .completed⟩
    | .error e => ⟨acc, true, .errored e⟩
  | data :: rest, pulls + 1, acc =>
    match stream_step data chat_id with
    | .yield message =>
      StreamReceiver_chain_go sender chat_id rest pulls
        (acc ++ [message.payload])
    | .ended =>
      match absorb_cancellation (await_after_cancel sender) with
      | .ok _ => ⟨acc, true, .completed⟩
      | .error e => ⟨acc, true, .errored e⟩
    | .raised e => ⟨acc, false, .errored e⟩

/-- receivers.py `StreamReceiver.chain`, from the start of the run. -/
def StreamReceiver_chain (sender : TaskState) (chat_id : Uuid)
    (inbound : List Wire) (pulls : Nat) : StreamChainRun :=
  StreamReceiver_chain_go sender chat_id inbound pulls []

/-- Construction input of a frame: the variant together with its legal
payload beyond the chat envelope. -/
inductive FrameSpec where
  | start
  | stop
  | streamEnd
  | data (payload : Json)
  | appError (code : Int) (reason : String)
  | protocolError (reason : String)

/-- The message class corresponding to a construction input. -/
def FrameSpec.kind : FrameSpec → MessageKind
  | .start => .start
  | .stop => .stop
  | .streamEnd => .streamEnd
  | .data _ => .data
  | .appError _ _ => .appError
  | .protocolError _ => .protocolError

/-- Constructing a fresh frame of the given variant for the given chat: the
pydantic constructor with `id` filled from `uuid4()` (passed explicitly). -/
def newFrame (v : FrameSpec) (chat_id : Uuid) (fresh_id : Uuid) : Message :=
  match v with
  | .start => .start ⟨fresh_id, chat_id⟩
  | .stop => .stop ⟨fresh_id, chat_id⟩
  | .streamEnd => .streamEnd ⟨fresh_id, chat_id⟩
  | .data payload => .data ⟨fresh_id, chat_id, payload⟩
  | .appError code reason => .appError ⟨fresh_id, chat_id, code, reason⟩
  | .protocolError reason => .protocolError ⟨fresh_id, some chat_id, reason⟩

/-- Serialization `.json(by_alias=True)` dispatched over the union. -/
def Message.json : Message → Json
  | .start m => m.json
  | .stop m => m.json
  | .data m => m.json
  | .streamEnd m => m.json
  | .appError m => m.json
  | .protocolError m => m.json

/-- Equality of frames up to the auto-generated `id` field. -/
def Message.eqModuloId : Message → Message → Prop
  | .start a, .start b => a.chat_id = b.chat_id
  | .stop a, .stop b => a.chat_id = b.chat_id
  | .streamEnd a, .streamEnd b => a.chat_id = b.chat_id
  | .data a, .data b => a.chat_id = b.chat_id ∧ a.payload = b.payload
  | .appError a, .appError b =>
    a.chat_id = b.chat_id ∧ a.code = b.code ∧ a.reason = b.reason
  | .protocolError a, .protocolError b =>
    a.chat_id = b.chat_id ∧ a.reason = b.reason
  | _, _ => False

/-- Modelled from the spec: the stateless request/reply dialect's message
definitions are missing from the sources — operations.py and its unit
tests pull `RequestMessage`, `ReplyMessage` and a `StreamEndMessage`
without chat fields from the messages module, but the messages module in the
sources holds only the chat-framed variants.  Section 6 of the spec gives
the stateless schema: `{ "type": "request", "id": UUID, "payload": JSON }`.
-/
structure RequestMessage where
  id : Uuid
  payload : Json

/-- Modelled from the spec: serialization of the stateless request frame
with lowerCamelCase field names and no chat envelope fields. -/
def RequestMessage.json (m : RequestMessage) : Json :=
  .obj [("type", .str "request"), ("id", uuidJson m.id),
        ("payload", m.payload)]

/-- Modelled from the spec: the stateless `stream-end` frame is exactly
`{ "type": "stream-end" }`, constructed with no arguments
(`StreamEndMessage().json()` in operations.py) and carrying neither `id`
nor `chatId`. -/
def stateless_stream_end_json : Json := .obj [("type", .str "stream-end")]

/-- operations.py `create_request_message(payload)` (its definition is
missing from the sources; modelled from the spec's stateless schema with
the fresh `uuid4()` id passed explicitly). -/
def create_request_message (payload : Json) (fresh_id : Uuid) :
    RequestMessage :=
  ⟨fresh_id, payload⟩

/-- Outbound frames written by operations.py `request_stream_in` and
`request_stream_in_out`: one serialized request frame per payload in
order, then the stateless `stream-end` frame. -/
def request_stream_in_sent (payloads : List Json) (fresh : Nat → Uuid) :
    List Json :=
  (((List.range payloads.length).zip payloads).map
    (fun p => (create_request_message p.2 (fresh p.1)).json)) ++
    [stateless_stream_end_json]

/-- Whether a frame carries a given top-level key. -/
def Json.hasKey : Json → String → Bool
  | .obj fields, key => (fields.lookup key).isSome
  | _, _ => false

/-- The UUID wire codec is a section: decoding a serialized UUID recovers
it. -/
theorem asUuid_uuidJson (u : Uuid) : asUuid (uuidJson u) = some u := by
  cases u
  simp [asUuid, uuidJson, uuidStr, String.length]

/-- Pydantic round trip for `StartMessage`. -/
theorem StartMessage.parse_raw_round_trip_startmessage (m : StartMessage) :
    StartMessage.parse_raw (Wire.json m.json) = some m := by
  simp [StartMessage.parse_raw, StartMessage.json, objFieldsOf, typeFieldOk,
        lookupField, List.lookup, parseIdField, parseChatIdField,
        asUuid_uuidJson]

/-- Pydantic round trip for `StopMessage`. -/
theorem StopMessage.parse_raw_round_trip_stopmessage (m : StopMessage) :
    StopMessage.parse_raw (Wire.json m.json) = some m := by
  simp [StopMessage.parse_raw, StopMessage.json, objFieldsOf, typeFieldOk,
        lookupField, List.lookup, parseIdField, parseChatIdField,
        asUuid_uuidJson]

/-- Pydantic round trip for `StreamEndMessage`. -/
theorem StreamEndMessage.parse_raw_round_trip_streamendmessage (m : StreamEndMessage) :
    StreamEndMessage.parse_raw (Wire.json m.json) = some m := by
  simp [StreamEndMessage.parse_raw, StreamEndMessage.json, objFieldsOf,
        typeFieldOk, lookupField, List.lookup, parseIdField, parseChatIdField,
        asUuid_uuidJson]

/-- Pydantic round trip for `DataMessage`. -/
theorem DataMessage.parse_raw_round_trip_datamessage (m : DataMessage) :
    DataMessage.parse_raw (Wire.json m.json) = some m := by
  simp [DataMessage.parse_raw, DataMessage.json, objFieldsOf, typeFieldOk,
        lookupField, List.lookup, parseIdField, parseChatIdField,
        asUuid_uuidJson, parsePayloadField]

/-- Pydantic round trip for `AppErrorMessage`. -/
theorem AppErrorMessage.parse_raw_round_trip_apperrormessage (m : AppErrorMessage) :
    AppErrorMessage.parse_raw (Wire.json m.json) = some m := by
  simp [AppErrorMessage.parse_raw, AppErrorMessage.json, objFieldsOf,
        typeFieldOk, lookupField, List.lookup, parseIdField, parseChatIdField,
        asUuid_uuidJson, asInt, asStr]

/-- Pydantic round trip for `ProtocolErrorMessage`, including the nullable
chat id. -/
theorem ProtocolErrorMessage.parse_raw_round_trip_protocolerrormessage (m : ProtocolErrorMessage) :
    ProtocolErrorMessage.parse_raw (Wire.json m.json) = some m := by
  cases m with
  | mk i c r =>
    cases c with
    | none =>
      simp [ProtocolErrorMessage.parse_raw, ProtocolErrorMessage.json,
            objFieldsOf, typeFieldOk, lookupField, List.lookup, parseIdField,
            parseOptChatIdField, asUuid_uuidJson, asStr]
    | some u =>
      simp [ProtocolErrorMessage.parse_raw, ProtocolErrorMessage.json,
            objFieldsOf, typeFieldOk, lookupField, List.lookup, parseIdField,
            parseOptChatIdField, asUuid_uuidJson, asStr, uuidJson, asUuid,
            uuidStr, String.length]

/-- The `type` discriminator a frame carries, if any. -/
def frameType (f : Json) : Option String :=
  match f with
  | .obj fields =>
    match lookupField fields "type" "type" with
    | some (.str s) => some s
    | _ => none
  | _ => none

/-- Consistency of the chain model with the receive loop: one step of
`receive_data_message_stream` is exactly `stream_step`. -/
theorem receive_stream_cons_eq_step (chat_id : Uuid) (data : Wire)
    (rest : List Wire) :
    receive_data_message_stream chat_id (data :: rest) =
      (match stream_step data chat_id with
       | .yield m => (receive_data_message_stream chat_id rest).map
           (fun ms => m :: ms)
       | .ended => .ok []
       | .raised e => .error e) := by
  cases hp : parse_data_message data with
  | ok m =>
    cases hc : check_chat_id m.chat_id chat_id with
    | error e =>
      simp [receive_data_message_stream, stream_step, hp, hc]
    | ok u =>
      simp only [receive_data_message_stream, stream_step, hp, hc]
      cases receive_data_message_stream chat_id rest <;> simp [Except.map]
  | error e =>
    cases e with
    | appError code reason =>
      simp [receive_data_message_stream, stream_step, hp]
    | protocolError r =>
      cases hs : parse_stream_end_message data with
      | ok m =>
        cases hc : check_chat_id m.chat_id chat_id with
        | error e2 =>
          simp [receive_data_message_stream, stream_step, hp, hs, hc]
        | ok u => simp [receive_data_message_stream, stream_step, hp, hs, hc]
      | error e2 =>
        cases e2 with
        | protocolError r2 =>
          simp [receive_data_message_stream, stream_step, hp, hs]
        | appError code reason =>
          simp [receive_data_message_stream, stream_step, hp, hs]

/-- Awaiting a just-cancelled sender task that was pending or had already
completed raises nothing after the absorption. -/
theorem absorb_cancellation_clean (sender : TaskState)
    (hs : sender = .running ∨ sender = .finished) :
    absorb_cancellation (await_after_cancel sender) = .ok () := by
  rcases hs with h | h <;> subst h <;> rfl

/-- For a sender that would not raise, the stream chain cancels it exactly
on normal completion of the receive loop; abandonment and propagated
errors skip the cancellation lines. -/
theorem stream_chain_go_cancel_iff (sender : TaskState)
    (hs : sender = .running ∨ sender = .finished) (chat_id : Uuid) :
    ∀ (inbound : List Wire) (pulls : Nat) (acc : List Json),
      ((StreamReceiver_chain_go sender chat_id inbound pulls acc).outcome =
          .completed ↔
        (StreamReceiver_chain_go sender chat_id inbound pulls
          acc).sender_cancelled = true) ∧
      ((StreamReceiver_chain_go sender chat_id inbound pulls acc).outcome =
          .abandoned →
        (StreamReceiver_chain_go sender chat_id inbound pulls
          acc).sender_cancelled = false) ∧
      (∀ e,
        (StreamReceiver_chain_go sender chat_id inbound pulls acc).outcome =
          .errored e →
        (StreamReceiver_chain_go sender chat_id inbound pulls
          acc).sender_cancelled = false) := by
  intro inbound
  induction inbound with
  | nil =>
    intro pulls acc
    cases pulls with
    | zero => simp [StreamReceiver_chain_go]
    | succ p =>
      simp [StreamReceiver_chain_go, absorb_cancellation_clean sender hs]
  | cons data rest ih =>
    intro pulls acc
    cases pulls with
    | zero => simp [StreamReceiver_chain_go]
    | succ p =>
      cases hstep : stream_step data chat_id with
      | yield m =>
        simpa [StreamReceiver_chain_go, hstep] using ih p (acc ++ [m.payload])
      | ended =>
        simp [StreamReceiver_chain_go, hstep,
              absorb_cancellation_clean sender hs]
      | raised e => simp [StreamReceiver_chain_go, hstep]

/-- Where a run with a completed sender finishes cleanly, the same run with
a failed sender surfaces the sender's error at the cancellation await. -/
theorem stream_chain_go_failed_surfaces (e : Error) (chat_id : Uuid) :
    ∀ (inbound : List Wire) (pulls : Nat) (acc : List Json),
      (StreamReceiver_chain_go .finished chat_id inbound pulls acc).outcome =
        .completed →
      (StreamReceiver_chain_go (.failed e) chat_id inbound pulls
          acc).outcome = .errored e ∧
      (StreamReceiver_chain_go (.failed e) chat_id inbound pulls
          acc).sender_cancelled = true := by
  intro inbound
  induction inbound with
  | nil =>
    intro pulls acc h
    cases pulls with
    | zero => simp [StreamReceiver_chain_go] at h
    | succ p =>
      simp [StreamReceiver_chain_go, absorb_cancellation, await_after_cancel]
  | cons data rest ih =>
    intro pulls acc h
    cases pulls with
    | zero => simp [StreamReceiver_chain_go] at h
    | succ p =>
      cases hstep : stream_step data chat_id with
      | yield m =>
        have hh := ih p (acc ++ [m.payload])
          (by simpa [StreamReceiver_chain_go, hstep] using h)
        simpa [StreamReceiver_chain_go, hstep] using hh
      | ended =>
        simp [StreamReceiver_chain_go, hstep, absorb_cancellation,
              await_after_cancel]
      | raised e2 => simp [StreamReceiver_chain_go, hstep] at h

/-- The `data` frames of `send_data_message_stream` and its closing
`stream-end` frame are never `stop` frames. -/
theorem send_stream_frames_no_stop (chat_id : Uuid) (fresh : Nat → Uuid) :
    ∀ (payloads : List Json) (n : Nat) (f : Json),
      f ∈ send_data_message_stream_from chat_id fresh n payloads →
      frameType f ≠ some "stop" := by
  intro payloads
  induction payloads with
  | nil =>
    intro n f hf
    simp [send_data_message_stream_from] at hf
    subst hf
    simp [frameType, StreamEndMessage.json, lookupField, List.lookup]
  | cons p rest ih =>
    intro n f hf
    simp [send_data_message_stream_from] at hf
    rcases hf with h | h
    · subst h
      simp [frameType, send_data_message, serialize_data_message,
            create_data_message, DataMessage.json, lookupField, List.lookup]
    · exact ih (n + 1) f h

/-- Sample values used by the witness theorems below. -/
def sample_chat_id : Uuid := ⟨5⟩

/-- Wire form of a `data` frame on chat 5 carrying the payload "x". -/
def sample_data_wire : Wire :=
  Wire.json (DataMessage.json ⟨⟨1⟩, ⟨5⟩, Json.str "x"⟩)

/-- Wire form of a `data` frame on a different chat (id 6). -/
def sample_mismatched_data_wire : Wire :=
  Wire.json (DataMessage.json ⟨⟨1⟩, ⟨6⟩, Json.str "x"⟩)

/-- Wire form of a `streamEnd` frame on chat 5. -/
def sample_stream_end_wire : Wire :=
  Wire.json (StreamEndMessage.json ⟨⟨2⟩, ⟨5⟩⟩)

/-- Wire form of an `appError` frame on chat 5 with code 123, reason
"foo". -/
def sample_app_error_wire : Wire :=
  Wire.json (AppErrorMessage.json ⟨⟨3⟩, ⟨5⟩, 123, "foo"⟩)

/-- Claim C1: for every inbound text frame and every expected frame
variant, `parse_message` first attempts to decode the text as the expected
variant; on schema mismatch it attempts to decode it as a `protocolError`
frame (raising `ProtocolError` if that matches), then as an `appError`
frame (raising `AppError` with that frame's code and reason if that
matches); if none match it raises
`ProtocolError("Invalid message received.")`. -/
theorem c1_parse_message_cascade (data : Wire) (message_type : MessageKind) :
    (∀ m, parse_raw message_type data = some m →
      parse_message data message_type = .ok m) ∧
    (parse_raw message_type data = none →
      (∀ e, ProtocolErrorMessage.parse_raw data = some e →
        parse_message data message_type = .error (.protocolError e.display)) ∧
      (ProtocolErrorMessage.parse_raw data = none →
        (∀ e, AppErrorMessage.parse_raw data = some e →
          parse_message data message_type =
            .error (.appError e.code e.reason)) ∧
        (AppErrorMessage.parse_raw data = none →
          parse_message data message_type =
            .error (.protocolError "Invalid message received.")))) := by
  refine ⟨?_, ?_⟩
  · intro m h
    simp [parse_message, h]
  · intro h
    refine ⟨?_, ?_⟩
    · intro e he
      simp [parse_message, message_error, h, he]
    · intro hp
      refine ⟨?_, ?_⟩
      · intro e he
        simp [parse_message, message_error, h, hp, he]
      · intro ha
        simp [parse_message, message_error, INVALID_MESSAGE_ERROR, h, hp, ha]

/-- Witness for C1: a frame that is not valid JSON matches no variant of
the cascade and yields the fixed invalid-message error. -/
theorem c1_witness :
    parse_message Wire.invalid MessageKind.data =
      .error (.protocolError "Invalid message received.") :=
  (((c1_parse_message_cascade Wire.invalid MessageKind.data).2 rfl).2 rfl).2
    rfl

/-- Claim C2: in the stream receive loop, each inbound frame is first
parsed as `data`; if that raises `ProtocolError`, the same frame is parsed
as `streamEnd`; on its success the `streamEnd`'s chat id is verified and
the sequence terminates cleanly; if it too raises `ProtocolError`, the
original data-parse error is re-raised; an `AppError` from the data-parse
cascade propagates directly. -/
theorem c2_stream_receive_frame_handling (chat_id : Uuid) (data : Wire)
    (rest : List Wire) :
    (∀ m, parse_data_message data = .ok m → m.chat_id = chat_id →
      receive_data_message_stream chat_id (data :: rest) =
        (receive_data_message_stream chat_id rest).map (fun ms => m :: ms)) ∧
    (∀ r, parse_data_message data = .error (.protocolError r) →
      (∀ m, parse_stream_end_message data = .ok m →
        (m.chat_id = chat_id →
          receive_data_message_stream chat_id (data :: rest) = .ok []) ∧
        (m.chat_id ≠ chat_id →
          receive_data_message_stream chat_id (data :: rest) =
            .error CONVERSATION_ERROR)) ∧
      (∀ r2, parse_stream_end_message data = .error (.protocolError r2) →
        receive_data_message_stream chat_id (data :: rest) =
          .error (.protocolError r))) ∧
    (∀ code reason,
      parse_data_message data = .error (.appError code reason) →
      receive_data_message_stream chat_id (data :: rest) =
        .error (.appError code reason)) := by
  refine ⟨?_, ?_, ?_⟩
  · intro m h hc
    simp only [receive_data_message_stream, h, check_chat_id, hc]
    cases receive_data_message_stream chat_id rest <;> simp [Except.map]
  · intro r h
    refine ⟨?_, ?_⟩
    · intro m hm
      refine ⟨?_, ?_⟩
      · intro hc
        simp [receive_data_message_stream, h, hm, check_chat_id, hc]
      · intro hc
        simp [receive_data_message_stream, h, hm, check_chat_id, hc]
    · intro r2 h2
      simp [receive_data_message_stream, h, h2]
  · intro code reason h
    simp [receive_data_message_stream, h]

/-- Witness for C2: a lone `streamEnd` frame on the right chat fails the
`data` parse, succeeds the `streamEnd` parse and terminates the sequence
cleanly, never touching the frames after it. -/
theorem c2_witness :
    receive_data_message_stream ⟨5⟩ [sample_stream_end_wire, Wire.invalid] =
      .ok [] :=
  ((((c2_stream_receive_frame_handling ⟨5⟩ sample_stream_end_wire
    [Wire.invalid]).2.1 "Invalid message received." rfl).1 ⟨⟨2⟩, ⟨5⟩⟩
    rfl).1) rfl

/-- Claim C3: for every non-error frame the client receives (`data`,
`stop`, and `streamEnd` in the stream loop), the frame's `chatId` is
compared against the chat's id; a mismatch raises a `ProtocolError` whose
reason is exactly "Received incompatible conversation id.", and a matching
`chatId` raises no such error. -/
theorem c3_chat_id_verification (message_chat_id chat_id : Uuid) :
    (check_chat_id message_chat_id chat_id =
      if message_chat_id = chat_id then .ok ()
      else .error
        (Error.protocolError "Received incompatible conversation id.")) ∧
    (∀ data m, parse_data_message data = .ok m →
      receive_data_message data chat_id =
        if m.chat_id = chat_id then .ok m
        else .error
          (Error.protocolError "Received incompatible conversation id.")) ∧
    (∀ data m, parse_stop_message data = .ok m →
      receive_stop_message data chat_id =
        if m.chat_id = chat_id then .ok m
        else .error
          (Error.protocolError "Received incompatible conversation id.")) ∧
    (∀ data m rest r, parse_data_message data = .error (.protocolError r) →
      parse_stream_end_message data = .ok m →
      receive_data_message_stream chat_id (data :: rest) =
        if m.chat_id = chat_id then .ok []
        else .error
          (Error.protocolError "Received incompatible conversation id.")) := by
  refine ⟨?_, ?_, ?_, ?_⟩
  · by_cases h : message_chat_id = chat_id <;>
      simp [check_chat_id, CONVERSATION_ERROR, h]
  · intro data m hm
    by_cases h : m.chat_id = chat_id <;>
      simp [receive_data_message, hm, check_chat_id, CONVERSATION_ERROR, h]
  · intro data m hm
    by_cases h : m.chat_id = chat_id <;>
      simp [receive_stop_message, hm, check_chat_id, CONVERSATION_ERROR, h]
  · intro data m rest r hd hs
    by_cases h : m.chat_id = chat_id <;>
      simp [receive_data_message_stream, hd, hs, check_chat_id,
            CONVERSATION_ERROR, h]

/-- Witness for C3: a `data` frame stamped with chat 6 received on chat 5
yields exactly the fixed conversation error. -/
theorem c3_witness :
    receive_data_message sample_mismatched_data_wire ⟨5⟩ =
      .error (Error.protocolError "Received incompatible conversation id.") :=
  ((c3_chat_id_verification ⟨6⟩ ⟨5⟩).2.1 sample_mismatched_data_wire
    ⟨⟨1⟩, ⟨6⟩, Json.str "x"⟩ rfl).trans (if_neg (by decide))

/-- Claim C4: when the single receiver's chain completes its one receive,
the spawned sender task is cancelled, awaited, and the cancellation signal
absorbed: for a sender still running or already finished, cancellation
after the reply arrives raises no error and the received payload is
returned. -/
theorem c4_single_chain_cancel_absorbed (sender : TaskState) (data : Wire)
    (chat_id : Uuid) (payload : Json)
    (hs : sender = .running ∨ sender = .finished)
    (hr : SingleReceiver_receive data chat_id = .ok payload) :
    SingleReceiver_chain sender data chat_id = ⟨true, .ok payload⟩ := by
  rcases hs with h | h <;> subst h <;>
    simp [SingleReceiver_chain, hr, await_after_cancel, absorb_cancellation]

/-- Witness for C4: a still-running sender and an already-finished sender,
cancelled after a successful single receive on chat 5, both surface no
error and return the payload. -/
theorem c4_witness :
    SingleReceiver_chain .running sample_data_wire ⟨5⟩ =
      ⟨true, .ok (Json.str "x")⟩ ∧
    SingleReceiver_chain .finished sample_data_wire ⟨5⟩ =
      ⟨true, .ok (Json.str "x")⟩ :=
  ⟨c4_single_chain_cancel_absorbed .running sample_data_wire ⟨5⟩
      (Json.str "x") (Or.inl rfl) rfl,
    c4_single_chain_cancel_absorbed .finished sample_data_wire ⟨5⟩
      (Json.str "x") (Or.inr rfl) rfl⟩

/-- Counterexample to C5 as stated: the stream receiver's chain does not
cancel the sender on every termination path.  On a server `appError` frame
the error propagates out of the generator before the cancellation lines,
and when the consumer abandons the iteration after one pull the generator
is closed at its `yield`; in both runs the sender task is left
uncancelled. -/
theorem c5_counterexample :
    (StreamReceiver_chain .running ⟨5⟩ [sample_app_error_wire]
      9).sender_cancelled = false ∧
    (StreamReceiver_chain .running ⟨5⟩ [sample_app_error_wire] 9).outcome =
      .errored (.appError 123 "foo") ∧
    (StreamReceiver_chain .running ⟨5⟩ [sample_data_wire, sample_data_wire]
      1).sender_cancelled = false ∧
    (StreamReceiver_chain .running ⟨5⟩ [sample_data_wire, sample_data_wire]
      1).outcome = .abandoned :=
  ⟨rfl, rfl, rfl, rfl⟩

/-- Claim C5 as amended: for a sender that is still running or already
finished, the stream receiver's chain cancels the sender task exactly when
its receive loop terminates normally (a `streamEnd` frame or exhaustion of
the inbound stream, with the consumer still iterating), and the absorbed
cancellation never surfaces as an error (the run completes); on a
propagated error (for example a server error frame) and on consumer
abandonment, the chain exits without reaching the cancellation and the
sender is left uncancelled. -/
theorem c5_amended_cancel_on_normal_completion (sender : TaskState)
    (chat_id : Uuid) (inbound : List Wire) (pulls : Nat)
    (hs : sender = .running ∨ sender = .finished) :
    ((StreamReceiver_chain sender chat_id inbound pulls).outcome =
        .completed ↔
      (StreamReceiver_chain sender chat_id inbound
        pulls).sender_cancelled = true) ∧
    ((StreamReceiver_chain sender chat_id inbound pulls).outcome =
        .abandoned →
      (StreamReceiver_chain sender chat_id inbound
        pulls).sender_cancelled = false) ∧
    (∀ e, (StreamReceiver_chain sender chat_id inbound pulls).outcome =
        .errored e →
      (StreamReceiver_chain sender chat_id inbound
        pulls).sender_cancelled = false) :=
  stream_chain_go_cancel_iff sender hs chat_id inbound pulls []

/-- Witness for the amended C5: a run that sees a `streamEnd` frame on
chat 5 while the consumer still pulls cancels the still-running sender and
completes without error. -/
theorem c5_witness :
    (StreamReceiver_chain .running ⟨5⟩ [sample_stream_end_wire]
      9).outcome = .completed :=
  (c5_amended_cancel_on_normal_completion .running ⟨5⟩
    [sample_stream_end_wire] 9 (Or.inl rfl)).1.mpr rfl

/-- Claim C6: if the sender task raised an exception other than
cancellation while chained with a receiver, that exception surfaces to the
caller: at the await of the cancelled sender task only the cancellation
signal is absorbed, a pending or completed task raises nothing, and a
failed task's error becomes the chain's result (for the single chain after
its receive, and for the stream chain wherever a clean run would have
completed); sender errors are never silently swallowed at that await. -/
theorem c6_sender_error_surfaces (e : Error) (chat_id : Uuid) :
    absorb_cancellation (await_after_cancel .running) = .ok () ∧
    absorb_cancellation (await_after_cancel .finished) = .ok () ∧
    absorb_cancellation (await_after_cancel (.failed e)) = .error e ∧
    (∀ data payload, SingleReceiver_receive data chat_id = .ok payload →
      SingleReceiver_chain (.failed e) data chat_id = ⟨true, .error e⟩) ∧
    (∀ inbound pulls,
      (StreamReceiver_chain .finished chat_id inbound pulls).outcome =
        .completed →
      (StreamReceiver_chain (.failed e) chat_id inbound pulls).outcome =
        .errored e) := by
  refine ⟨rfl, rfl, rfl, ?_, ?_⟩
  · intro data payload hr
    simp [SingleReceiver_chain, hr, await_after_cancel, absorb_cancellation]
  · intro inbound pulls h
    exact (stream_chain_go_failed_surfaces e chat_id inbound pulls [] h).1

/-- Witness for C6: a sender that failed with a protocol error surfaces
that error through the single chain after a successful receive on
chat 5. -/
theorem c6_witness :
    SingleReceiver_chain (.failed (.protocolError "boom")) sample_data_wire
      ⟨5⟩ = ⟨true, .error (.protocolError "boom")⟩ :=
  (c6_sender_error_surfaces (.protocolError "boom") ⟨5⟩).2.2.2.1
    sample_data_wire (Json.str "x") rfl

/-- Claim C7: the chat envelope, on entry, generates a fresh chat id and
sends exactly one `start` frame carrying it before yielding the id to the
body; on normal exit it awaits one frame, parses it as `stop`, and verifies
its `chatId` against the chat's id; on exceptional exit of the body the
error propagates and no stop frame is awaited; and the client never emits a
`stop` frame on any path (neither the envelope nor the data senders). -/
theorem c7_chat_envelope {α : Type} (chat_id fresh_start_id : Uuid)
    (body : Uuid → Except Error α) (stop_wire : Wire) :
    ((chat chat_id fresh_start_id body stop_wire).sent =
      [StartMessage.json ⟨fresh_start_id, chat_id⟩]) ∧
    (∀ e, body chat_id = .error e →
      chat chat_id fresh_start_id body stop_wire =
        ⟨[StartMessage.json ⟨fresh_start_id, chat_id⟩], 0, .error e⟩) ∧
    (∀ a, body chat_id = .ok a →
      (chat chat_id fresh_start_id body stop_wire).stop_frames_awaited = 1 ∧
      (chat chat_id fresh_start_id body stop_wire).outcome =
        (match receive_stop_message stop_wire chat_id with
         | .ok _ => .ok a
         | .error e => .error e)) ∧
    (∀ f ∈ (chat chat_id fresh_start_id body stop_wire).sent,
      frameType f ≠ some "stop") ∧
    (∀ payload fresh_id,
      frameType (send_data_message chat_id payload fresh_id) ≠
        some "stop") ∧
    (∀ fresh payloads f, f ∈ send_data_message_stream chat_id fresh payloads →
      frameType f ≠ some "stop") := by
  have hsent : (chat chat_id fresh_start_id body stop_wire).sent =
      [StartMessage.json ⟨fresh_start_id, chat_id⟩] := by
    cases hb : body chat_id with
    | error e => simp [chat, hb, send_start_message]
    | ok a =>
      cases hr : receive_stop_message stop_wire chat_id <;>
        simp [chat, hb, hr, send_start_message]
  refine ⟨hsent, ?_, ?_, ?_, ?_, ?_⟩
  · intro e hb
    simp [chat, hb, send_start_message]
  · intro a hb
    cases hr : receive_stop_message stop_wire chat_id <;>
      simp [chat, hb, hr, send_start_message]
  · intro f hf
    rw [hsent] at hf
    simp at hf
    subst hf
    simp [frameType, StartMessage.json, lookupField, List.lookup]
  · intro payload fresh_id
    simp [frameType, send_data_message, serialize_data_message,
          create_data_message, DataMessage.json, lookupField, List.lookup]
  · intro fresh payloads f hf
    exact send_stream_frames_no_stop chat_id fresh payloads 0 f hf

/-- Witness for C7: a body that fails on chat 5 propagates its error with
no stop frame awaited, after exactly the one start frame was sent. -/
theorem c7_witness :
    chat ⟨5⟩ ⟨1⟩
        (fun _ => (.error (.protocolError "boom") : Except Error Unit))
        Wire.invalid =
      ⟨[StartMessage.json ⟨⟨1⟩, ⟨5⟩⟩], 0,
        .error (.protocolError "boom")⟩ :=
  (c7_chat_envelope ⟨5⟩ ⟨1⟩
    (fun _ => (.error (.protocolError "boom") : Except Error Unit))
    Wire.invalid).2.1 (.protocolError "boom") rfl

/-- Claim C8: for every frame variant and every legal payload, parsing the
serialized form of a freshly constructed frame yields a frame equal to the
original in every field except the auto-generated `id`, with serialization
using lowerCamelCase field names. -/
theorem c8_round_trip_modulo_id (v : FrameSpec) (chat_id fresh1 fresh2 : Uuid) :
    ∃ m, parse_message (Wire.json (Message.json (newFrame v chat_id fresh1)))
        v.kind = .ok m ∧
      Message.eqModuloId m (newFrame v chat_id fresh2) := by
  cases v with
  | start =>
    refine ⟨.start ⟨fresh1, chat_id⟩, ?_, ?_⟩
    · simp [parse_message, parse_raw, FrameSpec.kind, newFrame, Message.json,
            StartMessage.parse_raw_round_trip_startmessage]
    · simp [Message.eqModuloId, newFrame]
  | stop =>
    refine ⟨.stop ⟨fresh1, chat_id⟩, ?_, ?_⟩
    · simp [parse_message, parse_raw, FrameSpec.kind, newFrame, Message.json,
            StopMessage.parse_raw_round_trip_stopmessage]
    · simp [Message.eqModuloId, newFrame]
  | streamEnd =>
    refine ⟨.streamEnd ⟨fresh1, chat_id⟩, ?_, ?_⟩
    · simp [parse_message, parse_raw, FrameSpec.kind, newFrame, Message.json,
            StreamEndMessage.parse_raw_round_trip_streamendmessage]
    · simp [Message.eqModuloId, newFrame]
  | data payload =>
    refine ⟨.data ⟨fresh1, chat_id, payload⟩, ?_, ?_⟩
    · simp [parse_message, parse_raw, FrameSpec.kind, newFrame, Message.json,
            DataMessage.parse_raw_round_trip_datamessage]
    · simp [Message.eqModuloId, newFrame]
  | appError code reason =>
    refine ⟨.appError ⟨fresh1, chat_id, code, reason⟩, ?_, ?_⟩
    · simp [parse_message, parse_raw, FrameSpec.kind, newFrame, Message.json,
            AppErrorMessage.parse_raw_round_trip_apperrormessage]
    · simp [Message.eqModuloId, newFrame]
  | protocolError reason =>
    refine ⟨.protocolError ⟨fresh1, some chat_id, reason⟩, ?_, ?_⟩
    · simp [parse_message, parse_raw, FrameSpec.kind, newFrame, Message.json,
            ProtocolErrorMessage.parse_raw_round_trip_protocolerrormessage]
    · simp [Message.eqModuloId, newFrame]

/-- Claim C9: in the stateless request/reply dialect, the frames sent by
`request_stream_in` and `request_stream_in_out` omit the chat envelope's
`chatId`, and the stream-end frame sent after the last outbound request is
exactly the object with the single field `type = "stream-end"`,
constructed and serialized without a `chatId`. -/
theorem c9_stateless_stream_end (payloads : List Json) (fresh : Nat → Uuid) :
    (request_stream_in_sent payloads fresh).getLast? =
      some (Json.obj [("type", Json.str "stream-end")]) ∧
    (∀ f ∈ request_stream_in_sent payloads fresh,
      f.hasKey "chatId" = false ∧ f.hasKey "chat_id" = false) ∧
    stateless_stream_end_json = Json.obj [("type", Json.str "stream-end")] ∧
    stateless_stream_end_json.hasKey "id" = false := by
  refine ⟨?_, ?_, rfl,
    by simp [Json.hasKey, stateless_stream_end_json, List.lookup]⟩
  · simp [request_stream_in_sent, stateless_stream_end_json,
          List.getLast?_concat]
  · intro f hf
    simp [request_stream_in_sent] at hf
    rcases hf with ⟨a, b, hmem, hfeq⟩ | hfeq
    · subst hfeq
      refine ⟨?_, ?_⟩ <;>
        simp [Json.hasKey, RequestMessage.json, create_request_message,
              List.lookup]
    · subst hfeq
      refine ⟨?_, ?_⟩ <;>
        simp [Json.hasKey, stateless_stream_end_json, List.lookup]

/-- Witness for C9: with one outbound payload, the last frame sent is the
bare stream-end object. -/
theorem c9_witness :
    (request_stream_in_sent [Json.null] (fun _ => ⟨0⟩)).getLast? =
      some (Json.obj [("type", Json.str "stream-end")]) :=
  (c9_stateless_stream_end [Json.null] (fun _ => ⟨0⟩)).1

/-- Claim C10: if the inbound frame sequence is exhausted without any
`streamEnd` or error frame — every frame parses as a `data` frame on the
chat — the stream receiver terminates normally after yielding every data
payload received, raising no error for the missing `streamEnd`
terminator. -/
theorem c10_exhaustion_without_stream_end (chat_id : Uuid)
    (inbound : List Wire) (messages : List DataMessage)
    (h : List.Forall₂
      (fun data m => parse_data_message data = .ok m ∧ m.chat_id = chat_id)
      inbound messages) :
    receive_data_message_stream chat_id inbound = .ok messages ∧
    StreamReceiver_receive chat_id inbound =
      .ok (messages.map DataMessage.payload) := by
  induction h with
  | nil => simp [receive_data_message_stream, StreamReceiver_receive]
  | @cons data m rest ms hd _ ih =>
    obtain ⟨hp, hc⟩ := hd
    refine ⟨?_, ?_⟩
    · simp [receive_data_message_stream, hp, check_chat_id, hc, ih.1]
    · simp [StreamReceiver_receive, receive_data_message_stream, hp,
            check_chat_id, hc, ih.1]

/-- Witness for C10: two data frames on chat 5 and then exhaustion yield
both payloads and terminate normally. -/
theorem c10_witness :
    StreamReceiver_receive ⟨5⟩ [sample_data_wire, sample_data_wire] =
      .ok [Json.str "x", Json.str "x"] :=
  (c10_exhaustion_without_stream_end ⟨5⟩ [sample_data_wire, sample_data_wire]
    [⟨⟨1⟩, ⟨5⟩, Json.str "x"⟩, ⟨⟨1⟩, ⟨5⟩, Json.str "x"⟩]
    (List.Forall₂.cons ⟨rfl, rfl⟩
      (List.Forall₂.cons ⟨rfl, rfl⟩ List.Forall₂.nil))).2
